import Mathlib

/-!
Verification of the HDFS / ZooKeeper operator reconciliation core.

Shallow embedding of the two controllers:
  * `src/hdfs-operator/src/crd.rs`        — `HdfsClusterSpec`, `KerberosConfig` and its `Display`
  * `src/hdfs-operator/src/controller.rs` — `hadoop_config_xml`, `reconcile_hdfs`, `error_policy`
  * `src/zookeeper-operator/src/zk_controller.rs` — `reconcile_zk`, `error_policy`

Machine integers (`i32` replica counts) are modelled as `Int`; the Rust range
`0..k` is modelled by `rustRange`, which is empty for non-positive `k`, exactly
as in Rust.  Fallible reconciliation is modelled by an explicit outcome type
(`RunOutcome`) together with the ordered list of upserts that were issued;
a `Result::unwrap` panic in the source is modelled by the `panicked` outcome.
The opaque kube apply transport is modelled by an oracle `applyFails` saying
which upserts fail.
-/

/-- The Rust iterator `(0..k)` for an `i32` bound `k`, as the list
`[0, 1, ..., k-1]` (empty when `k ≤ 0`). -/
def rustRange (k : Int) : List Int :=
  (List.range k.toNat).map Int.ofNat

/-- `KerberosConfig` from `src/hdfs-operator/src/crd.rs` (fields `realm`, `kdc`,
both optional). -/
structure KerberosConfig where
  realm : Option String
  kdc : Option String
deriving DecidableEq

/-- The lines written by `impl Display for KerberosConfig`
(`src/hdfs-operator/src/crd.rs`, lines 41-57): each `writeln!` of the source
contributes exactly one element of this list, in source order. -/
def KerberosConfig.renderLines (c : KerberosConfig) : List String :=
  ["[libdefaults]"]
    ++ (match c.realm with
        | some realm => ["default_realm = " ++ realm]
        | none => [])
    ++ ["[realms]"]
    ++ (match c.realm with
        | some realm =>
          [realm ++ " = \x7b"]
            ++ (match c.kdc with
                | some kdc => ["kdc = " ++ kdc]
                | none => [])
            ++ ["\x7d"]
        | none => [])

/-- The full rendered `krb5.conf` document: every `writeln!` ends its line with
a newline, so the document is the concatenation of the lines, each followed by
`"\n"`. -/
def KerberosConfig.render (c : KerberosConfig) : String :=
  String.join (c.renderLines.map (fun l => l ++ "\n"))

/-- `HdfsClusterSpec` from `src/hdfs-operator/src/crd.rs`. -/
structure HdfsClusterSpec where
  namenode_replicas : Option Int
  datanode_replicas : Option Int
  journalnode_replicas : Option Int
  namenode_znode_config_map : Option String
  kerberos : KerberosConfig
deriving DecidableEq

/-- The object metadata consulted by the controllers (`metadata.name`,
`metadata.namespace`).  The field `namespace` is called `ns` here because
`namespace` is a Lean keyword. -/
structure ObjectMetaModel where
  name : Option String
  ns : Option String
deriving DecidableEq

/-- The `HdfsCluster` custom resource (metadata + spec). -/
structure HdfsCluster where
  metadata : ObjectMetaModel
  spec : HdfsClusterSpec
deriving DecidableEq

/-- `namenode_name` (`controller.rs` line 190): `format!("{}-namenode", name)`. -/
def namenode_name (name : String) : String := name ++ "-namenode"

/-- `namenode_fqdn` (`controller.rs` line 191):
`format!("{}.{}.svc.cluster.local", namenode_name, ns)`. -/
def namenode_fqdn (name ns : String) : String :=
  namenode_name name ++ "." ++ ns ++ ".svc.cluster.local"

/-- `namenode_pod_fqdn` (`controller.rs` line 192):
`format!("{}-{}.{}", namenode_name, i, namenode_fqdn)`. -/
def namenode_pod_fqdn (name ns : String) (i : Int) : String :=
  namenode_name name ++ "-" ++ toString i ++ "." ++ namenode_fqdn name ns

/-- `datanode_name` (`controller.rs` line 196). -/
def datanode_name (name : String) : String := name ++ "-datanode"

/-- `journalnode_name` (`controller.rs` line 200). -/
def journalnode_name (name : String) : String := name ++ "-journalnode"

/-- `journalnode_fqdn` (`controller.rs` line 201). -/
def journalnode_fqdn (name ns : String) : String :=
  journalnode_name name ++ "." ++ ns ++ ".svc.cluster.local"

/-- `journalnode_pod_fqdn` (`controller.rs` line 202):
`format!("{}-{}.{}", journalnode_name, i, journalnode_fqdn)`. -/
def journalnode_pod_fqdn (name ns : String) (i : Int) : String :=
  journalnode_name name ++ "-" ++ toString i ++ "." ++ journalnode_fqdn name ns

/-- One `writeln!` of the loop body of `hadoop_config_xml`
(`controller.rs` lines 60-67): the key and value are interpolated verbatim,
and the line ends with the newline appended by `writeln!`. -/
def propertyElement (k v : String) : String :=
  "<property><name>" ++ k ++ "</name><value>" ++ v ++ "</value></property>\n"

/-- The concatenation of the property lines of a key/value list, in input
order (helper describing the loop of `hadoop_config_xml` as a whole). -/
def propertyElements : List (String × String) → String
  | [] => ""
  | kv :: rest => propertyElement kv.1 kv.2 ++ propertyElements rest

/-- `hadoop_config_xml` (`controller.rs` lines 55-71): starts from
`"<configuration>\n"`, appends one property line per input pair (the Rust
`for` loop over the iterator, modelled as a left fold), then appends
`"</configuration>"`.  No escaping of any kind is applied to keys or values. -/
def hadoop_config_xml (kvs : List (String × String)) : String :=
  (kvs.foldl (fun xml kv => xml ++ propertyElement kv.1 kv.2) "<configuration>\n")
    ++ "</configuration>"

/-- The `hdfs_site_config` key/value sequence built in `reconcile_hdfs`
(`controller.rs` lines 207-311): the 19 literal entries, chained with the
per-namenode rpc/http address entries.  `nameservice_id` is the cluster name
(line 189) and `kerberos_realm` is `spec.kerberos.realm.unwrap_or("LOCAL")`
(line 206). -/
def hdfs_site_config (name ns : String) (spec : HdfsClusterSpec) :
    List (String × String) :=
  let kerberos_realm := spec.kerberos.realm.getD "LOCAL"
  [("dfs.namenode.name.dir", "/data"),
   ("dfs.datanode.data.dir", "/data"),
   ("dfs.journalnode.edits.dir", "/data"),
   ("dfs.nameservices", name),
   ("dfs.ha.namenodes." ++ name,
    String.intercalate ", "
      ((rustRange (spec.namenode_replicas.getD 1)).map
        (fun i => "name-" ++ toString i))),
   ("dfs.namenode.shared.edits.dir",
    "qjournal://"
      ++ String.intercalate ";"
          ((rustRange (spec.journalnode_replicas.getD 1)).map
            (journalnode_pod_fqdn name ns))
      ++ "/" ++ name),
   ("dfs.client.failover.proxy.provider." ++ name,
    "org.apache.hadoop.hdfs.server.namenode.ha.ConfiguredFailoverProxyProvider"),
   ("dfs.ha.fencing.methods", "shell(/bin/true)"),
   ("dfs.ha.nn.not-become-active-in-safemode", "true"),
   ("dfs.ha.automatic-failover.enabled", "true"),
   ("ha.zookeeper.quorum", "$\x7benv.ZOOKEEPER_BROKERS\x7d"),
   ("dfs.block.access.token.enable", "true"),
   ("ignore.secure.ports.for.testing", "true"),
   ("dfs.journalnode.kerberos.principal",
    "jn/" ++ namenode_fqdn name ns ++ "@" ++ kerberos_realm),
   ("dfs.journalnode.keytab.file", "/kerberos/jn.service.keytab"),
   ("dfs.namenode.kerberos.principal",
    "nn/" ++ namenode_fqdn name ns ++ "@" ++ kerberos_realm),
   ("dfs.namenode.keytab.file", "/kerberos/nn.service.keytab"),
   ("dfs.datanode.kerberos.principal",
    "dn/" ++ namenode_fqdn name ns ++ "@" ++ kerberos_realm),
   ("dfs.datanode.keytab.file", "/kerberos/dn.service.keytab")]
    ++ (rustRange (spec.namenode_replicas.getD 1)).flatMap
        (fun i =>
          [("dfs.namenode.rpc-address." ++ name ++ ".name-" ++ toString i,
            namenode_pod_fqdn name ns i ++ ":8020"),
           ("dfs.namenode.http-address." ++ name ++ ".name-" ++ toString i,
            namenode_pod_fqdn name ns i ++ ":9870")])

/-- The static `log4j.properties` asset is included via `include_str!` from a
file that is not part of the repository snapshot; its content is irrelevant to
every claim, so it is modelled as an unspecified constant. -/
def log4j_properties : String := ""

/-- `core-site.xml` key/value pairs (`controller.rs` lines 324-339). -/
def core_site_config (name : String) : List (String × String) :=
  [("fs.defaultFS", "hdfs://" ++ name ++ "/"),
   ("hadoop.security.authentication", "kerberos"),
   ("hadoop.security.authorization", "false")]

/-- The `data` of the config `ConfigMap` (`controller.rs` lines 321-351);
the four keys happen to already be in the `BTreeMap` (sorted) order. -/
def hdfs_config_map_data (name ns : String) (spec : HdfsClusterSpec) :
    List (String × String) :=
  [("core-site.xml", hadoop_config_xml (core_site_config name)),
   ("hdfs-site.xml", hadoop_config_xml (hdfs_site_config name ns spec)),
   ("krb5.conf", spec.kerberos.render),
   ("log4j.properties", log4j_properties)]

/-- One port of a k8s `Service` as used by the controller: name, port number,
and the optional named `target_port`. -/
structure ServicePortModel where
  portName : String
  port : Int
  targetPort : Option String
deriving DecidableEq

/-- The fields of the generated `Service` objects that the claims are about. -/
structure ServiceModel where
  name : String
  ns : String
  ports : List ServicePortModel
  clusterIp : Option String
  publishNotReadyAddresses : Option Bool
deriving DecidableEq

/-- The fields of the generated `StatefulSet` objects that the claims are
about. -/
structure StatefulSetModel where
  name : String
  ns : String
  podManagementPolicy : Option String
  replicas : Option Int
  serviceName : String
deriving DecidableEq

/-- The journalnode `Service` (`controller.rs` lines 357-382):
`publish_not_ready_addresses: Some(true)`. -/
def journalnodeService (name ns : String) : ServiceModel :=
  { name := journalnode_name name
    ns := ns
    ports := [⟨"ipc", 8485, none⟩]
    clusterIp := some "None"
    publishNotReadyAddresses := some true }

/-- The journalnode `StatefulSet` (`controller.rs` lines 426-454):
`replicas: hdfs.spec.journalnode_replicas` (the option is passed through
unchanged). -/
def journalnodeStatefulSet (name ns : String) (spec : HdfsClusterSpec) :
    StatefulSetModel :=
  { name := journalnode_name name
    ns := ns
    podManagementPolicy := some "Parallel"
    replicas := spec.journalnode_replicas
    serviceName := journalnode_name name }

/-- The namenode `Service` (`controller.rs` lines 455-489):
`publish_not_ready_addresses: Some(true)`, http port aliased by name. -/
def namenodeService (name ns : String) : ServiceModel :=
  { name := namenode_name name
    ns := ns
    ports := [⟨"ipc", 8020, none⟩, ⟨"http", 80, some "http"⟩]
    clusterIp := some "None"
    publishNotReadyAddresses := some true }

/-- The namenode `StatefulSet` (`controller.rs` lines 577-606):
`replicas: hdfs.spec.namenode_replicas`. -/
def namenodeStatefulSet (name ns : String) (spec : HdfsClusterSpec) :
    StatefulSetModel :=
  { name := namenode_name name
    ns := ns
    podManagementPolicy := some "Parallel"
    replicas := spec.namenode_replicas
    serviceName := namenode_name name }

/-- The datanode `Service` (`controller.rs` lines 607-640): the
`publish_not_ready_addresses` field is left unset (`None`), i.e. the service
does not advertise not-yet-ready addresses. -/
def datanodeService (name ns : String) : ServiceModel :=
  { name := datanode_name name
    ns := ns
    ports := [⟨"ipc", 9867, none⟩, ⟨"http", 80, some "http"⟩]
    clusterIp := some "None"
    publishNotReadyAddresses := none }

/-- The datanode `StatefulSet` (`controller.rs` lines 698-727):
`replicas: hdfs.spec.datanode_replicas`. -/
def datanodeStatefulSet (name ns : String) (spec : HdfsClusterSpec) :
    StatefulSetModel :=
  { name := datanode_name name
    ns := ns
    podManagementPolicy := some "Parallel"
    replicas := spec.datanode_replicas
    serviceName := datanode_name name }

/-- The `Error` enum of `src/hdfs-operator/src/controller.rs` (lines 35-42);
the payloads (object references, kube transport errors) are omitted since no
claim depends on them. -/
inductive HdfsError where
  | ObjectHasNoNamespace
  | ApplyExternalService
  | ApplyPeerService
  | ApplyStatefulSet
deriving DecidableEq

/-- The seven resources upserted by `reconcile_hdfs`, in their fixed
application order. -/
inductive HdfsResource where
  | configMap
  | journalnodeSvc
  | journalnodeSts
  | namenodeSvc
  | namenodeSts
  | datanodeSvc
  | datanodeSts
deriving DecidableEq

/-- Outcome of one reconciliation run: normal completion, a typed error
returned to the scheduler, or an abnormal termination (a Rust panic, caused by
`Result::unwrap` / `Option::unwrap` in the source). -/
inductive RunOutcome (ε : Type) where
  | success
  | errored (e : ε)
  | panicked
deriving DecidableEq

/-- True exactly when the outcome is a classified (typed) error value. -/
def RunOutcome.isTypedError {ε : Type} : RunOutcome ε → Bool
  | .errored _ => true
  | _ => false

/-- `reconcile_hdfs` (`controller.rs` lines 171-732), as the pair of the run
outcome and the ordered list of upserts issued (each attempted upsert is
listed, including a failing one; upserts after the first failure are not
issued).  Control flow, faithful to the source:
  * `metadata.namespace` is checked first; absence returns the typed
    `ObjectHasNoNamespace` error before any upsert (lines 175-181);
  * `metadata.name` is then `unwrap`ped (line 184) — absence panics;
  * the ConfigMap apply result is `unwrap`ped (line 356) — failure panics;
  * every other apply is classified via `context`: services with
    `ApplyPeerService`, stateful sets with `ApplyStatefulSet`, and the `?`
    operator stops the sequence at the first failure.
The opaque kube transport is the oracle `applyFails`. -/
def reconcile_hdfs (hdfs : HdfsCluster) (applyFails : HdfsResource → Bool) :
    RunOutcome HdfsError × List HdfsResource :=
  match hdfs.metadata.ns with
  | none => (.errored .ObjectHasNoNamespace, [])
  | some _ =>
    match hdfs.metadata.name with
    | none => (.panicked, [])
    | some _ =>
      if applyFails .configMap then
        (.panicked, [.configMap])
      else if applyFails .journalnodeSvc then
        (.errored .ApplyPeerService, [.configMap, .journalnodeSvc])
      else if applyFails .journalnodeSts then
        (.errored .ApplyStatefulSet, [.configMap, .journalnodeSvc, .journalnodeSts])
      else if applyFails .namenodeSvc then
        (.errored .ApplyPeerService,
         [.configMap, .journalnodeSvc, .journalnodeSts, .namenodeSvc])
      else if applyFails .namenodeSts then
        (.errored .ApplyStatefulSet,
         [.configMap, .journalnodeSvc, .journalnodeSts, .namenodeSvc, .namenodeSts])
      else if applyFails .datanodeSvc then
        (.errored .ApplyPeerService,
         [.configMap, .journalnodeSvc, .journalnodeSts, .namenodeSvc, .namenodeSts,
          .datanodeSvc])
      else if applyFails .datanodeSts then
        (.errored .ApplyStatefulSet,
         [.configMap, .journalnodeSvc, .journalnodeSts, .namenodeSvc, .namenodeSts,
          .datanodeSvc, .datanodeSts])
      else
        (.success,
         [.configMap, .journalnodeSvc, .journalnodeSts, .namenodeSvc, .namenodeSts,
          .datanodeSvc, .datanodeSts])

/-- `error_policy` of the HDFS controller (`controller.rs` lines 734-738):
requeue after `Duration::from_secs(5)` regardless of the error.  The action
is modelled by its optional requeue delay in seconds. -/
def error_policy_hdfs (_error : HdfsError) : Option Nat := some 5

/-- `ZookeeperClusterSpec` fields consulted by `reconcile_zk`
(`zk_controller.rs` lines 263-267).  The crd module of the zookeeper operator
is not in the snapshot; the field types `Option<i32>` / `Option<bool>` are
determined by their uses (`zk.spec.replicas` fills `StatefulSetSpec.replicas`,
`zk.spec.stopped.unwrap_or(false)`). -/
structure ZookeeperClusterSpec where
  replicas : Option Int
  stopped : Option Bool
deriving DecidableEq

/-- The `ZookeeperCluster` custom resource (metadata + spec). -/
structure ZookeeperCluster where
  metadata : ObjectMetaModel
  spec : ZookeeperClusterSpec
deriving DecidableEq

/-- Modelled from the spec: `global_service_name` lives in the zookeeper
operator's crd module, which is missing from the snapshot; per the spec's
IdentityResolver ("a role-level stable group name" derived from the cluster
name) it is the cluster name itself, absent only when the name is absent. -/
def ZookeeperCluster.global_service_name (zk : ZookeeperCluster) : Option String :=
  zk.metadata.name

/-- Modelled from the spec: `server_role_service_name` also lives in the
missing crd module; per the spec's IdentityResolver it is a stable per-role
group name derived from the cluster name, absent only when the name is
absent. -/
def ZookeeperCluster.server_role_service_name (zk : ZookeeperCluster) :
    Option String :=
  zk.metadata.name.map (fun n => n ++ "-servers")

/-- The `Error` enum of `src/zookeeper-operator/src/zk_controller.rs`
(lines 40-79); payloads omitted as for `HdfsError`. -/
inductive ZkError where
  | ObjectHasNoNamespace
  | GlobalServiceNameNotFound
  | RoleServiceNameNotFound
  | ApplyGlobalService
  | ApplyRoleService
  | ApplyRoleConfig
  | ApplyStatefulSet
deriving DecidableEq

/-- The four resources upserted by `reconcile_zk`, in their fixed order. -/
inductive ZkResource where
  | globalService
  | roleService
  | roleConfigMap
  | statefulSet
deriving DecidableEq

/-- The `replicas` field of the zookeeper `StatefulSet`
(`zk_controller.rs` lines 263-267): `Some(0)` when
`zk.spec.stopped.unwrap_or(false)`, else `zk.spec.replicas` unchanged. -/
def zookeeperStatefulSet (roleSvcName ns : String) (spec : ZookeeperClusterSpec) :
    StatefulSetModel :=
  { name := roleSvcName
    ns := ns
    podManagementPolicy := some "Parallel"
    replicas := if spec.stopped.getD false then some 0 else spec.replicas
    serviceName := roleSvcName }

/-- `reconcile_zk` (`zk_controller.rs` lines 81-325), modelled like
`reconcile_hdfs`: the namespace is checked first (lines 86-92, typed
`ObjectHasNoNamespace`), then the two service names are resolved (both
contexted with `RoleServiceNameNotFound`, lines 95-106), then the four upserts
run in order, each classified by its own error variant, stopping at the first
failure. -/
def reconcile_zk (zk : ZookeeperCluster) (applyFails : ZkResource → Bool) :
    RunOutcome ZkError × List ZkResource :=
  match zk.metadata.ns with
  | none => (.errored .ObjectHasNoNamespace, [])
  | some _ =>
    match zk.global_service_name with
    | none => (.errored .RoleServiceNameNotFound, [])
    | some _ =>
      match zk.server_role_service_name with
      | none => (.errored .RoleServiceNameNotFound, [])
      | some _ =>
        if applyFails .globalService then
          (.errored .ApplyGlobalService, [.globalService])
        else if applyFails .roleService then
          (.errored .ApplyRoleService, [.globalService, .roleService])
        else if applyFails .roleConfigMap then
          (.errored .ApplyRoleConfig, [.globalService, .roleService, .roleConfigMap])
        else if applyFails .statefulSet then
          (.errored .ApplyStatefulSet,
           [.globalService, .roleService, .roleConfigMap, .statefulSet])
        else
          (.success, [.globalService, .roleService, .roleConfigMap, .statefulSet])

/-- `error_policy` of the zookeeper controller (`zk_controller.rs` lines
327-331): requeue after a fixed 5 seconds regardless of the error. -/
def error_policy_zk (_error : ZkError) : Option Nat := some 5

/-- The left brace character (written by code point to keep brace characters
out of string literals). -/
def lbrace : Char := Char.ofNat 123

/-- Claim-side form asserted by C1 (from the spec's words): the URI is
`"qjournal://"`, then exactly `J` semicolon-separated addresses each suffixed
`":8485"`, then `"/"` and the nameservice id (= cluster name). -/
def journalQuorumUriClaimForm (uri clusterName : String) (J : Nat) : Prop :=
  ∃ addrs : List String,
    addrs.length = J
      ∧ (∀ a ∈ addrs, ∃ p, a = p ++ ":8485")
      ∧ uri = "qjournal://" ++ String.intercalate ";" addrs ++ "/" ++ clusterName

/-- Claim-side notion for C8: a line of the Kerberos document that states a
kdc, i.e. `"kdc = " ++ v` for a value `v`.  A line ending in the left brace is
a realm-stanza opener (`REALM = \x7b`), which is block syntax rather than a
kdc setting, so such lines are excluded. -/
def isKdcSettingLine (l : String) : Prop :=
  ∃ v : String, l = "kdc = " ++ v ∧ v.data.getLast? ≠ some lbrace

/-! ### Helper lemmas -/

/-- The accumulating loop of `hadoop_config_xml`, unrolled: folding the
property lines over any initial accumulator appends their concatenation. -/
theorem propertyElements_foldl (kvs : List (String × String)) :
    ∀ init : String,
      kvs.foldl (fun xml kv => xml ++ propertyElement kv.1 kv.2) init
        = init ++ propertyElements kvs := by
  induction kvs with
  | nil => intro init; simp [propertyElements, String.append_empty]
  | cons kv rest ih =>
    intro init
    simp only [List.foldl_cons, ih, propertyElements, String.append_assoc]

/-- The rendered configuration document is the fixed frame around the
concatenation of the per-pair property lines, in input order. -/
theorem hadoop_config_xml_decomp (kvs : List (String × String)) :
    hadoop_config_xml kvs
      = "<configuration>\n" ++ propertyElements kvs ++ "</configuration>" := by
  rw [hadoop_config_xml, propertyElements_foldl]

/-- Every input pair contributes its own property line somewhere in the
concatenation of property lines. -/
theorem propertyElements_mem_decomp {kv : String × String}
    {kvs : List (String × String)} (hm : kv ∈ kvs) :
    ∃ pre post, propertyElements kvs = pre ++ propertyElement kv.1 kv.2 ++ post := by
  induction kvs with
  | nil => cases hm
  | cons a rest ih =>
    rcases List.mem_cons.mp hm with h | h
    · subst h
      exact ⟨"", propertyElements rest, by simp [propertyElements, String.empty_append]⟩
    · obtain ⟨pre, post, hp⟩ := ih h
      refine ⟨propertyElement a.1 a.2 ++ pre, post, ?_⟩
      show propertyElement a.1 a.2 ++ propertyElements rest = _
      rw [hp]
      simp [String.append_assoc]

/-- A property line holds exactly one newline (the one appended by
`writeln!`) provided the key and the value hold none. -/
theorem propertyElement_count_newline (k v : String)
    (hk : '\n' ∉ k.data) (hv : '\n' ∉ v.data) :
    (propertyElement k v).data.count '\n' = 1 := by
  rw [propertyElement]
  simp [String.data_append, List.count_append, List.count_eq_zero.mpr hk,
    List.count_eq_zero.mpr hv]

/-- The concatenated property lines hold exactly one newline per input pair,
provided no key or value holds a newline. -/
theorem propertyElements_count_newline (kvs : List (String × String))
    (h : ∀ kv ∈ kvs, '\n' ∉ kv.1.data ∧ '\n' ∉ kv.2.data) :
    (propertyElements kvs).data.count '\n' = kvs.length := by
  induction kvs with
  | nil => rfl
  | cons kv rest ih =>
    have hkv := h kv (List.mem_cons_self kv rest)
    rw [propertyElements, String.data_append, List.count_append,
      propertyElement_count_newline kv.1 kv.2 hkv.1 hkv.2,
      ih (fun x hx => h x (List.mem_cons_of_mem _ hx))]
    simp [List.length_cons]
    omega

/-- A string whose first character is not `k` is not a kdc settings line. -/
theorem not_kdc_line_of_head (l : String) (h : l.data.head? ≠ some 'k') :
    ¬ isKdcSettingLine l := by
  rintro ⟨v, hv, -⟩
  apply h
  rw [hv, String.data_append]
  rfl

/-- The first character of a rendered `default_realm` line is `d`, whatever
the realm. -/
theorem head_append_default_realm (r : String) :
    ("default_realm = " ++ r).data.head? = some 'd' := by
  rw [String.data_append]
  rfl

/-- If a realm-stanza opening line (`REALM = \x7b`) is read as
`"kdc = " ++ v`, then `v` necessarily ends with the left brace — i.e. such a
reading never yields a kdc settings line. -/
theorem realm_opener_forces_brace (v r : String)
    (h : "kdc = " ++ v = r ++ " = \x7b") : v.data.getLast? = some lbrace := by
  have hd : "kdc = ".data ++ v.data = r.data ++ " = \x7b".data := by
    rw [← String.data_append, ← String.data_append, h]
  rcases eq_or_ne v.data [] with hv | hv
  · rw [hv, List.append_nil] at hd
    have h2 : (r.data ++ " = \x7b".data).getLast? = some lbrace := by
      rw [List.getLast?_append_of_ne_nil _ (by decide)]
      decide
    rw [← hd] at h2
    exact absurd h2 (by decide)
  · rw [← List.getLast?_append_of_ne_nil "kdc = ".data hv, hd,
      List.getLast?_append_of_ne_nil _ (by decide)]
    decide

/-- Folding string concatenation from an appended accumulator factors the
accumulator out. -/
theorem string_foldl_append (l : List String) :
    ∀ x y : String, l.foldl (· ++ ·) (x ++ y) = x ++ l.foldl (· ++ ·) y := by
  induction l with
  | nil => intro x y; rfl
  | cons c t ih =>
    intro x y
    simp only [List.foldl_cons, String.append_assoc, ih]

/-- `String.join` peels off its head element. -/
theorem string_join_cons (a : String) (l : List String) :
    String.join (a :: l) = a ++ String.join l := by
  show (a :: l).foldl (· ++ ·) "" = a ++ l.foldl (· ++ ·) ""
  rw [List.foldl_cons, String.empty_append, ← String.append_empty a,
    string_foldl_append, String.append_empty]

/-- The concatenated property lines are the join of the per-pair elements,
mapped over the input in insertion order, each with the key and value copied
verbatim. -/
theorem propertyElements_eq_join (kvs : List (String × String)) :
    propertyElements kvs
      = String.join (kvs.map (fun kv =>
          "<property><name>" ++ kv.1 ++ "</name><value>" ++ kv.2
            ++ "</value></property>\n")) := by
  induction kvs with
  | nil => rfl
  | cons kv rest ih =>
    show propertyElement kv.1 kv.2 ++ propertyElements rest = _
    rw [List.map_cons, string_join_cons, ih, propertyElement]

/-! ### Claim theorems -/

/-- Claim C1, counterexample.  The claim asserts the shared-edits value is a
quorum URI whose `J` semicolon-separated entries each end in `":8485"`.  On
the cluster named `hdfs1` in namespace `ns` with `journalnode_replicas`
absent (so `J = 1`), the code produces
`qjournal://hdfs1-journalnode-0.hdfs1-journalnode.ns.svc.cluster.local/hdfs1`:
the single journalnode address carries no port suffix at all (the generated
URI holds no character `8` anywhere, while any URI of the claimed form with
`J = 1` would). -/
theorem C1_journal_quorum_uri_counterexample :
    (hdfs_site_config "hdfs1" "ns" ⟨none, none, none, none, ⟨none, none⟩⟩).get? 5 =
      some ("dfs.namenode.shared.edits.dir",
        "qjournal://hdfs1-journalnode-0.hdfs1-journalnode.ns.svc.cluster.local/hdfs1")
    ∧ ¬ journalQuorumUriClaimForm
        "qjournal://hdfs1-journalnode-0.hdfs1-journalnode.ns.svc.cluster.local/hdfs1"
        "hdfs1" 1 := by
  refine ⟨by decide, ?_⟩
  rintro ⟨addrs, hlen, hsuf, heq⟩
  obtain ⟨a, rfl⟩ := List.length_eq_one.mp hlen
  obtain ⟨p, rfl⟩ := hsuf a (List.mem_singleton_self a)
  have h8in : ('8' : Char) ∈ (":8485").data := by decide
  have h8 : ('8' : Char) ∈
      ("qjournal://hdfs1-journalnode-0.hdfs1-journalnode.ns.svc.cluster.local/hdfs1").data := by
    rw [heq]
    rw [show String.intercalate ";" [p ++ ":8485"] = p ++ ":8485" from rfl]
    simp only [String.data_append, List.mem_append]
    tauto
  exact absurd h8 (by decide)

/-- Claim C1, amended.  For every cluster spec, the value of the hdfs-site key
`dfs.namenode.shared.edits.dir` (the sixth entry of the key/value sequence) is
`"qjournal://"` followed by exactly `J` semicolon-separated journalnode pod
fqdns — in ordinal order and WITHOUT any `":8485"` port suffix — followed by
`"/"` and the nameservice id, which is the cluster name; `J` is the
journalnode replica count defaulting to 1 when absent (clamped to 0 for a
negative configured value, as the Rust range is then empty). -/
theorem C1_journal_quorum_uri_amended (name ns : String) (spec : HdfsClusterSpec) :
    (hdfs_site_config name ns spec).get? 5 =
      some ("dfs.namenode.shared.edits.dir",
        "qjournal://"
          ++ String.intercalate ";"
              ((rustRange (spec.journalnode_replicas.getD 1)).map
                (journalnode_pod_fqdn name ns))
          ++ "/" ++ name)
    ∧ ((rustRange (spec.journalnode_replicas.getD 1)).map
        (journalnode_pod_fqdn name ns)).length
      = (spec.journalnode_replicas.getD 1).toNat := by
  refine ⟨rfl, ?_⟩
  simp [rustRange]

/-- Claim C2, counterexample.  The claim asserts markup-significant characters
in keys/values are escaped so the output is always well-formed markup.  On the
input pair `("k", "a<b")` the renderer copies the value verbatim: the rendered
document holds the raw fragment `<value>a<b</value>`, and its angle brackets
do not balance (nine `<` against eight `>`), whereas a rendering that escaped
every markup-significant character of keys and values would draw all its angle
brackets from the fixed, balanced element frame.  The output is therefore not
well-formed markup and nothing was escaped. -/
theorem C2_hadoop_config_xml_counterexample :
    hadoop_config_xml [("k", "a<b")] =
      "<configuration>\n<property><name>k</name><value>a<b</value></property>\n</configuration>"
    ∧ ("<configuration>\n<property><name>k</name><value>a<b</value></property>\n</configuration>").data.count '<'
        ≠
      ("<configuration>\n<property><name>k</name><value>a<b</value></property>\n</configuration>").data.count '>' := by
  constructor <;> decide

/-- Claim C2, amended.  For EVERY sequence of key/value pairs the renderer
does NOT escape markup-significant characters, and the output contains
exactly one property element per input pair, in input insertion order:
(1) the document is exactly the fixed frame around the concatenation of the
property lines; (2) that concatenation is the join of the per-pair elements
mapped over the input in insertion order, each copying its key and value
verbatim (no escaping); (3) consequently each pair's verbatim element occurs
in the document; and (4) when no key or value holds a newline, the document
holds exactly one line-terminating newline per input pair plus the one of
the opening frame line — one property line per pair. -/
theorem C2_hadoop_config_xml_amended (kvs : List (String × String)) :
    hadoop_config_xml kvs
      = "<configuration>\n" ++ propertyElements kvs ++ "</configuration>"
    ∧ propertyElements kvs
      = String.join (kvs.map (fun kv =>
          "<property><name>" ++ kv.1 ++ "</name><value>" ++ kv.2
            ++ "</value></property>\n"))
    ∧ (∀ kv ∈ kvs, ∃ pre post : String,
        hadoop_config_xml kvs = pre ++ propertyElement kv.1 kv.2 ++ post)
    ∧ ((∀ kv ∈ kvs, '\n' ∉ kv.1.data ∧ '\n' ∉ kv.2.data) →
        (hadoop_config_xml kvs).data.count '\n' = kvs.length + 1) := by
  refine ⟨hadoop_config_xml_decomp kvs, propertyElements_eq_join kvs, ?_, ?_⟩
  · intro kv hm
    obtain ⟨pre, post, hp⟩ := propertyElements_mem_decomp hm
    refine ⟨"<configuration>\n" ++ pre, post ++ "</configuration>", ?_⟩
    rw [hadoop_config_xml_decomp, hp]
    simp [String.append_assoc]
  · intro h
    rw [hadoop_config_xml_decomp, String.data_append, String.data_append,
      List.count_append, List.count_append,
      propertyElements_count_newline kvs h]
    have h1 : ("<configuration>\n").data.count '\n' = 1 := by decide
    have h2 : ("</configuration>").data.count '\n' = 0 := by decide
    rw [h1, h2]
    omega

/-- Witness for `C2_hadoop_config_xml_amended` at the concrete input
`[("k1", "v1"), ("k2", "v2")]`, discharging the newline-freedom hypothesis of
its line-count conjunct. -/
theorem C2_hadoop_config_xml_amended_witness :
    (hadoop_config_xml [("k1", "v1"), ("k2", "v2")]).data.count '\n' = 3 :=
  (C2_hadoop_config_xml_amended [("k1", "v1"), ("k2", "v2")]).2.2.2 (by decide)

/-- Claim C3, counterexample.  The claim asserts each principal hostname is
the FIRST NAMENODE's fqdn.  On the cluster `hdfs1` in namespace `ns`, the
first namenode's fqdn is
`hdfs1-namenode-0.hdfs1-namenode.ns.svc.cluster.local`
(`namenode_pod_fqdn` at ordinal 0), but the generated namenode principal is
`nn/hdfs1-namenode.ns.svc.cluster.local@LOCAL` — anchored to the namenode
role SERVICE fqdn, which differs from the first namenode's fqdn. -/
theorem C3_kerberos_principals_counterexample :
    (hdfs_site_config "hdfs1" "ns" ⟨none, none, none, none, ⟨none, none⟩⟩).get? 15 =
      some ("dfs.namenode.kerberos.principal",
        "nn/hdfs1-namenode.ns.svc.cluster.local@LOCAL")
    ∧ "nn/hdfs1-namenode.ns.svc.cluster.local@LOCAL" ≠
        "nn/" ++ namenode_pod_fqdn "hdfs1" "ns" 0 ++ "@" ++ "LOCAL" := by
  constructor <;> decide

/-- Claim C3, amended.  For every cluster spec, the Kerberos principal
generated for each role R in (journalnode, namenode, datanode) equals
`"(shortname R)/(anchorFqdn)@(realm)"` with shortnames `jn`/`nn`/`dn`, where
realm is the configured realm or `"LOCAL"` when unset, and anchorFqdn is the
namenode role service fqdn `(name)-namenode.(ns).svc.cluster.local` — the
same anchor host for all three roles (not the first namenode pod's fqdn). -/
theorem C3_kerberos_principals_amended (name ns : String) (spec : HdfsClusterSpec) :
    (hdfs_site_config name ns spec).get? 13 =
      some ("dfs.journalnode.kerberos.principal",
        "jn/" ++ namenode_fqdn name ns ++ "@" ++ spec.kerberos.realm.getD "LOCAL")
    ∧ (hdfs_site_config name ns spec).get? 15 =
      some ("dfs.namenode.kerberos.principal",
        "nn/" ++ namenode_fqdn name ns ++ "@" ++ spec.kerberos.realm.getD "LOCAL")
    ∧ (hdfs_site_config name ns spec).get? 17 =
      some ("dfs.datanode.kerberos.principal",
        "dn/" ++ namenode_fqdn name ns ++ "@" ++ spec.kerberos.realm.getD "LOCAL") :=
  ⟨rfl, rfl, rfl⟩

/-- Claim C4, counterexample.  The claim asserts an absent per-role replica
count is treated as exactly 1 everywhere it is used, including the replica
count of the role's generated workload group.  On a spec with
`namenode_replicas` absent, the generated namenode StatefulSet carries
`replicas = none` — the absent option is passed through unchanged, not set
to 1. -/
theorem C4_default_replicas_counterexample :
    (namenodeStatefulSet "hdfs1" "ns" ⟨none, none, none, none, ⟨none, none⟩⟩).replicas
      = none
    ∧ (namenodeStatefulSet "hdfs1" "ns" ⟨none, none, none, none, ⟨none, none⟩⟩).replicas
      ≠ some 1 := by
  constructor <;> decide

/-- Claim C4, amended.  An absent per-role replica count is treated as
exactly 1 in every derived configuration value — the logical namenode id
list, the journal quorum URI, and the per-namenode address maps all read the
count through `unwrap_or(1)`, so the whole hdfs-site sequence with absent
counts equals the one with counts 1 — but the replica count of each role's
generated workload group is the unmodified optional value from the spec
(absent stays absent; the external store applies its own defaulting, outside
this code). -/
theorem C4_default_replicas_amended (name ns : String) (spec : HdfsClusterSpec) :
    hdfs_site_config name ns
        { spec with namenode_replicas := none, journalnode_replicas := none } =
      hdfs_site_config name ns
        { spec with namenode_replicas := some 1, journalnode_replicas := some 1 }
    ∧ (journalnodeStatefulSet name ns spec).replicas = spec.journalnode_replicas
    ∧ (namenodeStatefulSet name ns spec).replicas = spec.namenode_replicas
    ∧ (datanodeStatefulSet name ns spec).replicas = spec.datanode_replicas :=
  ⟨rfl, rfl, rfl, rfl⟩

/-- Claim C5 (code bug), evaluation at the failing input.  When the
config-bundle (ConfigMap) upsert fails, `reconcile_hdfs` stops immediately
(no later upsert is issued) but terminates by panic — the source `unwrap`s
that one apply result — so NO classified error value of the typed taxonomy is
surfaced, contradicting the claim for the config bundle; by contrast a
failing journalnode service upsert does surface the typed
`ApplyPeerService` error, as the claim demands. -/
theorem C5_config_bundle_failure_panics :
    reconcile_hdfs ⟨⟨some "hdfs1", some "ns"⟩, ⟨none, none, none, none, ⟨none, none⟩⟩⟩
        (fun k => decide (k = HdfsResource.configMap))
      = (.panicked, [.configMap])
    ∧ (reconcile_hdfs ⟨⟨some "hdfs1", some "ns"⟩, ⟨none, none, none, none, ⟨none, none⟩⟩⟩
        (fun k => decide (k = HdfsResource.configMap))).1.isTypedError = false
    ∧ reconcile_hdfs ⟨⟨some "hdfs1", some "ns"⟩, ⟨none, none, none, none, ⟨none, none⟩⟩⟩
        (fun k => decide (k = HdfsResource.journalnodeSvc))
      = (.errored .ApplyPeerService, [.configMap, .journalnodeSvc]) :=
  ⟨by decide, by decide, by decide⟩

/-- Claim C6: a cluster spec whose metadata has no namespace makes both
reconcilers return the typed `ObjectHasNoNamespace` error immediately, with
no upsert issued at all, whatever the transport would have done. -/
theorem C6_missing_namespace (hdfs : HdfsCluster) (zk : ZookeeperCluster)
    (f : HdfsResource → Bool) (g : ZkResource → Bool)
    (hh : hdfs.metadata.ns = none) (hz : zk.metadata.ns = none) :
    reconcile_hdfs hdfs f = (.errored .ObjectHasNoNamespace, [])
    ∧ reconcile_zk zk g = (.errored .ObjectHasNoNamespace, []) := by
  constructor
  · simp [reconcile_hdfs, hh]
  · simp [reconcile_zk, hz]

/-- Witness for `C6_missing_namespace` at concrete namespace-less clusters. -/
theorem C6_missing_namespace_witness :
    reconcile_hdfs ⟨⟨some "hdfs1", none⟩, ⟨none, none, none, none, ⟨none, none⟩⟩⟩
        (fun _ => false)
      = (.errored .ObjectHasNoNamespace, [])
    ∧ reconcile_zk ⟨⟨some "zk1", none⟩, ⟨none, none⟩⟩ (fun _ => false)
      = (.errored .ObjectHasNoNamespace, []) :=
  C6_missing_namespace _ _ _ _ rfl rfl

/-- Claim C7: for every cluster, the generated journalnode and namenode
services set publish-not-ready-addresses to true, while the generated
datanode service leaves it unset (`none`, i.e. the default of not
advertising not-yet-ready addresses). -/
theorem C7_publish_not_ready_addresses (name ns : String) :
    (journalnodeService name ns).publishNotReadyAddresses = some true
    ∧ (namenodeService name ns).publishNotReadyAddresses = some true
    ∧ (datanodeService name ns).publishNotReadyAddresses = none :=
  ⟨rfl, rfl, rfl⟩

/-- Claim C8: properties of the rendered Kerberos document.  For every
configuration: the `[libdefaults]` and `[realms]` stanza headers are always
present (the latter even when realm and kdc are both absent); a
`default_realm` line is present if and only if a realm is set — the
biconditional quantifies over every possible line value, so a realm-less
document (whether or not a kdc is set) provably contains NO `default_realm`
line of any value — and when a realm is set the line showing exactly the
configured realm is present; when no kdc is set, no line of the document is
a kdc settings line (the realm-stanza opener `REALM = \x7b` is block syntax,
not a kdc setting, and is the only line shape that could masquerade as one);
with realm `EXAMPLE.COM` and kdc `kdc.example.com` the document is exactly
the six expected lines, including `default_realm = EXAMPLE.COM` and, inside
the realm stanza braces, `kdc = kdc.example.com`; with neither set the
document still consists of the two non-empty well-formed stanza headers. -/
theorem C8_krb5_document (c : KerberosConfig) :
    "[libdefaults]" ∈ c.renderLines
    ∧ "[realms]" ∈ c.renderLines
    ∧ ((∃ v, ("default_realm = " ++ v) ∈ c.renderLines) ↔ c.realm ≠ none)
    ∧ (∀ r, c.realm = some r → ("default_realm = " ++ r) ∈ c.renderLines)
    ∧ (c.kdc = none → ∀ l ∈ c.renderLines, ¬ isKdcSettingLine l)
    ∧ KerberosConfig.renderLines ⟨some "EXAMPLE.COM", some "kdc.example.com"⟩
        = ["[libdefaults]", "default_realm = EXAMPLE.COM", "[realms]",
           "EXAMPLE.COM = \x7b", "kdc = kdc.example.com", "\x7d"]
    ∧ "kdc = kdc.example.com" ∈
        KerberosConfig.renderLines ⟨some "EXAMPLE.COM", some "kdc.example.com"⟩
    ∧ isKdcSettingLine "kdc = kdc.example.com"
    ∧ KerberosConfig.renderLines ⟨none, none⟩ = ["[libdefaults]", "[realms]"] := by
  obtain ⟨realm, kdc⟩ := c
  refine ⟨?_, ?_, ?_, ?_, ?_, by decide, by decide,
    ⟨"kdc.example.com", by decide, by decide⟩, by decide⟩
  · cases realm <;> cases kdc <;> simp [KerberosConfig.renderLines]
  · cases realm <;> cases kdc <;> simp [KerberosConfig.renderLines]
  · cases realm with
    | none =>
      constructor
      · rintro ⟨v, hv⟩
        simp [KerberosConfig.renderLines] at hv
        rcases hv with hv | hv
        · have hd : ("default_realm = " ++ v).data.head?
              = ("[libdefaults]").data.head? := congrArg (fun s => s.data.head?) hv
          rw [head_append_default_realm] at hd
          exact absurd hd (by decide)
        · have hd : ("default_realm = " ++ v).data.head?
              = ("[realms]").data.head? := congrArg (fun s => s.data.head?) hv
          rw [head_append_default_realm] at hd
          exact absurd hd (by decide)
      · intro hc
        exact absurd rfl hc
    | some r =>
      constructor
      · intro _
        simp
      · intro _
        exact ⟨r, by cases kdc <;> simp [KerberosConfig.renderLines]⟩
  · intro r hr
    have hr' : realm = some r := hr
    subst hr'
    cases kdc <;> simp [KerberosConfig.renderLines]
  · rintro rfl l hl
    cases realm with
    | none =>
      simp [KerberosConfig.renderLines] at hl
      rcases hl with rfl | rfl
      · exact not_kdc_line_of_head _ (by decide)
      · exact not_kdc_line_of_head _ (by decide)
    | some r =>
      simp [KerberosConfig.renderLines] at hl
      rcases hl with rfl | rfl | rfl | rfl | rfl
      · exact not_kdc_line_of_head _ (by decide)
      · exact not_kdc_line_of_head _ (by rw [head_append_default_realm]; decide)
      · exact not_kdc_line_of_head _ (by decide)
      · rintro ⟨v, hv, hlast⟩
        exact hlast (realm_opener_forces_brace v r hv.symm)
      · exact not_kdc_line_of_head _ (by decide)

/-- Witness for `C8_krb5_document`, discharging its hypotheses at concrete
configurations: neither realm nor kdc set (empty-stanza document, no kdc
settings line anywhere) and the realm `EXAMPLE.COM` (its `default_realm`
line present). -/
theorem C8_krb5_document_witness :
    KerberosConfig.renderLines ⟨none, none⟩ = ["[libdefaults]", "[realms]"]
    ∧ ¬ isKdcSettingLine "[realms]"
    ∧ ("default_realm = " ++ "EXAMPLE.COM") ∈
        KerberosConfig.renderLines ⟨some "EXAMPLE.COM", some "kdc.example.com"⟩ :=
  ⟨(C8_krb5_document ⟨none, none⟩).2.2.2.2.2.2.2.2,
   (C8_krb5_document ⟨none, none⟩).2.2.2.2.1 rfl "[realms]" (by decide),
   (C8_krb5_document ⟨some "EXAMPLE.COM", some "kdc.example.com"⟩).2.2.2.1
     "EXAMPLE.COM" rfl⟩

/-- Claim C9: both error policies return the same next action for every
error value — requeue after exactly 5 seconds — independent of the error
kind. -/
theorem C9_error_policy_fixed_delay (e e' : HdfsError) (z z' : ZkError) :
    error_policy_hdfs e = some 5
    ∧ error_policy_zk z = some 5
    ∧ error_policy_hdfs e = error_policy_hdfs e'
    ∧ error_policy_zk z = error_policy_zk z' :=
  ⟨rfl, rfl, rfl, rfl⟩

/-- Claim C10: in the zookeeper reconciler, `stopped = some true` forces the
generated workload group's replica count to exactly 0 regardless of the
configured replica count, while `stopped = some false` or `stopped = none`
passes the optional configured count through unchanged (including the absent
case, since `r` ranges over every optional value). -/
theorem C10_stopped_replica_count (name ns : String) (r : Option Int) :
    (zookeeperStatefulSet name ns ⟨r, some true⟩).replicas = some 0
    ∧ (zookeeperStatefulSet name ns ⟨r, some false⟩).replicas = r
    ∧ (zookeeperStatefulSet name ns ⟨r, none⟩).replicas = r :=
  ⟨rfl, rfl, rfl⟩
